import Mathlib

/-!
Shallow embedding of the replica-placement core of LogDevice
(`logdevice/common/CopySetSelectorFactory.cpp`) and of the `OffsetMap`
serialization contract exercised by `logdevice/common/test/OffsetMapTest.cpp`.

Pure data and the factory's branching are translated directly from the
source.  Collaborator code that the factory merely calls
(`ReplicationProperty::toOldRepresentation`, `NodeLocationScope`,
`StorageMembership::writerView`, the log-id classifiers, the manager's
config-match check, `OffsetMap` itself) is not under `src/`; those parts are
modelled from the spec, each with a doc comment naming what is missing.
-/

namespace LogDevice

/-- Modelled from the spec: the `NodeLocationScope` enum is not in `src/`.
The spec's location hierarchy is "region → cluster → row → rack → node"
(§3), and the selector contract contemplates scope values other than node
and the four supported coarser levels ("Any other scope value is a
configuration invariant violation", §4.1); `ROOT` models the whole-cluster
root of the hierarchy, coarser than every named level. -/
inductive NodeLocationScope
  | NODE
  | RACK
  | ROW
  | CLUSTER
  | REGION
  | ROOT
  deriving DecidableEq

/-- Numeric rank of a scope: finer scopes are smaller, as in the source
enum's underlying ordering used by `operator>=`. -/
def NodeLocationScope.toNat : NodeLocationScope → Nat
  | .NODE => 0
  | .RACK => 1
  | .ROW => 2
  | .CLUSTER => 3
  | .REGION => 4
  | .ROOT => 5

/-- `a >= b` on scopes: `a` is at or coarser than `b`. -/
def scopeGe (a b : NodeLocationScope) : Bool :=
  b.toNat ≤ a.toNat

/-- A (node, shard-index) pair, the atomic unit of placement (spec §3). -/
structure ShardID where
  node : Nat
  shard : Nat
  deriving DecidableEq

/-- A nodeset: the shards eligible for a log epoch's replicas. -/
abbrev StorageSet := List ShardID

/-- The simple scope+factor representation of a replication requirement
(the source's `ReplicationProperty::OldRepresentation`). -/
structure OldRepresentation where
  replication_factor : Nat
  sync_replication_scope : NodeLocationScope
  deriving DecidableEq

/-- Modelled from the spec: `ReplicationProperty` is not in `src/`.  Per §3
a Replication Specification is a per-scope set of (scope, minimum distinct
domains) constraints; the simple representation is "one failure-domain
scope plus an integer replication factor". -/
structure ReplicationProperty where
  constraints : List (NodeLocationScope × Nat)
  deriving DecidableEq

/-- Modelled from the spec: `toOldRepresentation` is not in `src/`.  The
simple scope+factor representation is derivable exactly when the
specification consists of a single (scope, factor) constraint (§3). -/
def ReplicationProperty.toOldRepresentation
    (r : ReplicationProperty) : Option OldRepresentation :=
  match r.constraints with
  | [(scope, factor)] => some ⟨factor, scope⟩
  | _ => none

/-- Modelled from the spec: `getBiggestReplicationScope` is not in `src/`.
It returns the specification's largest constrained scope (§4.1). -/
def ReplicationProperty.getBiggestReplicationScope
    (r : ReplicationProperty) : NodeLocationScope :=
  r.constraints.foldl (fun acc c => if scopeGe c.1 acc then c.1 else acc) .NODE

/-- Modelled from the spec: the effective replication factor implied by a
weighted specification — large enough for every per-scope minimum (§4.4). -/
def ReplicationProperty.effectiveReplicationFactor
    (r : ReplicationProperty) : Nat :=
  r.constraints.foldl (fun acc c => max acc c.2) 0

/-- The fields of `EpochMetaData` that the factory reads: the replication
property, the per-shard weight vector, and the epoch's nodeset. -/
structure EpochMetaData where
  replication : ReplicationProperty
  weights : List Nat
  shards : StorageSet

/-- Modelled from the spec: the cluster configuration's storage membership
is not in `src/`; the factory only consults which shards the membership
permits writes to (`writerView`). -/
structure ServerConfig where
  canWriteTo : ShardID → Bool

/-- `getWritableShards` (source lines 21–28): restrict a nodeset to the
writer view of the storage membership, i.e. the shards the configuration
permits writes to. -/
def getWritableShards (ns : StorageSet) (config : ServerConfig) : StorageSet :=
  ns.filter config.canWriteTo

/-- The two settings the factory reads. -/
structure Settings where
  weighted_copyset_selector : Bool
  copyset_locality_min_scope : NodeLocationScope

/-- Log identifier. -/
abbrev logid_t := Nat

/-- Modelled from the spec: largest valid log id (the classifier constants
are not in `src/`; only the metadata/internal distinction matters here). -/
def LOGID_MAX : Nat := 2 ^ 62 - 1

/-- Modelled from the spec: largest user log id; ids above it up to
`LOGID_MAX` are reserved for internal logs. -/
def USER_LOGID_MAX : Nat := LOGID_MAX - 1000

/-- Modelled from the spec: `MetaDataLog::isMetaDataLog` is not in `src/`.
Metadata logs carry a reserved high bit above the data-log id range. -/
def MetaDataLog.isMetaDataLog (logid : logid_t) : Bool :=
  decide (2 ^ 62 ≤ logid)

/-- Modelled from the spec: `InternalLogs::isInternal` is not in `src/`.
Internal logs occupy the reserved id range above the user range. -/
def InternalLogs.isInternal (logid : logid_t) : Bool :=
  decide (USER_LOGID_MAX < logid) && decide (logid ≤ LOGID_MAX)

/-- The three copyset-selector variants the factory can instantiate, each
carrying the constructor arguments the source passes
(`WeightedCopySetSelector`, `LinearCopySetSelector`,
`CrossDomainCopySetSelector`). -/
inductive CopySetSelector
  | weighted (logid : logid_t) (epoch_metadata : EpochMetaData)
      (nodeset_state : Nat) (config : ServerConfig)
      (my_node_id : Option Nat) (log_attrs : Option Nat)
      (locality_enabled : Bool) (init_rng : Nat)
      (print_bias_warnings : Bool)
  | linear (replication_factor : Nat) (shards : StorageSet)
      (nodeset_state : Nat)
  | crossDomain (logid : logid_t) (shards : StorageSet)
      (nodeset_state : Nat) (config : ServerConfig) (my_node_id : Nat)
      (replication_factor : Nat)
      (sync_replication_scope : NodeLocationScope)

/-- The locality flag of a weighted selector, `none` for the others. -/
def CopySetSelector.localityEnabled : CopySetSelector → Option Bool
  | .weighted _ _ _ _ _ _ loc _ _ => some loc
  | _ => none

/-- The balance-warning flag of a weighted selector, `none` otherwise. -/
def CopySetSelector.printBiasWarnings : CopySetSelector → Option Bool
  | .weighted _ _ _ _ _ _ _ _ warn => some warn
  | _ => none

/-- Error statuses from the spec's taxonomy (§7). -/
inductive Status
  | INVALID_CONFIG
  | NOBUFS
  deriving DecidableEq

/-- The ways a factory call can conclude: return a selector; return null
with a global error status set (the spec's error-surfacing convention); or
fail fast — a failed `ld_check` assertion, or unwrapping an empty
`folly::Optional` with `.value()`.  `CopySetSelectorFactory::create` as
written never takes the `errorReturned` path; the constructor is present so
that the spec's error-handling contract can be stated and compared with
what the code does. -/
inductive FactoryResult
  | ok (selector : CopySetSelector)
  | errorReturned (status : Status)
  | abortAssert
  | abortEmptyOptional

/-- The arguments of `CopySetSelectorFactory::create`. -/
structure CreateInput where
  logid : logid_t
  epoch_metadata : EpochMetaData
  nodeset_state : Nat
  config : ServerConfig
  my_node_id : Option Nat
  log_attrs : Option Nat
  settings : Settings
  init_rng : Nat

/-- `CopySetSelectorFactory::create` (source lines 30–94), branch for
branch:
1. weights present, simple representation not derivable, or the
   `weighted_copyset_selector` setting on → `WeightedCopySetSelector`,
   with `locality_enabled` and `print_bias_warnings` computed as in the
   source (lines 48–57);
2. else simple scope `NODE` or factor 1 → `LinearCopySetSelector` over the
   writable shards (lines 70–76);
3. else `ld_check` that the scope is RACK/ROW/CLUSTER/REGION (fail-fast
   abort otherwise, lines 80–85), then `CrossDomainCopySetSelector` over
   the writable shards with `my_node_id.value()` — an abort when the
   optional is empty (lines 86–93). -/
def CopySetSelectorFactory.create (inp : CreateInput) : FactoryResult :=
  let legacy_replication := inp.epoch_metadata.replication.toOldRepresentation
  if legacy_replication = none ∨ inp.epoch_metadata.weights ≠ [] ∨
      inp.settings.weighted_copyset_selector = true then
    let locality_enabled :=
      scopeGe inp.epoch_metadata.replication.getBiggestReplicationScope
        inp.settings.copyset_locality_min_scope
    let print_bias_warnings :=
      !MetaDataLog.isMetaDataLog inp.logid &&
        !InternalLogs.isInternal inp.logid
    .ok (.weighted inp.logid inp.epoch_metadata inp.nodeset_state inp.config
      inp.my_node_id inp.log_attrs locality_enabled inp.init_rng
      print_bias_warnings)
  else
    match legacy_replication with
    | none => .abortAssert
    | some lr =>
      if lr.sync_replication_scope = .NODE ∨ lr.replication_factor = 1 then
        .ok (.linear lr.replication_factor
          (getWritableShards inp.epoch_metadata.shards inp.config)
          inp.nodeset_state)
      else
        if lr.sync_replication_scope = .RACK ∨
            lr.sync_replication_scope = .ROW ∨
            lr.sync_replication_scope = .CLUSTER ∨
            lr.sync_replication_scope = .REGION then
          match inp.my_node_id with
          | none => .abortEmptyOptional
          | some nid =>
            .ok (.crossDomain inp.logid
              (getWritableShards inp.epoch_metadata.shards inp.config)
              inp.nodeset_state inp.config nid lr.replication_factor
              lr.sync_replication_scope)
        else .abortAssert

/-- The two lifetime-manager variants (`StickyCopySetManager`,
`PassThroughCopySetManager`) with the configuration each constructor
receives. -/
inductive CopySetManagerVariant
  | sticky (block_size : Nat) (block_max_time : Nat)
  | passThrough
  deriving DecidableEq

/-- A copyset manager: a variant wrapping the selector the factory
produced, plus the state installed by `prepareConfigMatchCheck`. -/
structure CopySetManager where
  variant : CopySetManagerVariant
  selector : CopySetSelector
  nodeset_state : Nat
  match_check : Option StorageSet

/-- Modelled from the spec: `CopySetManager::prepareConfigMatchCheck` is
not in `src/`.  It arms the config-consistency check by recording the
writable view of the epoch's nodeset under the given configuration
(§4.5). -/
def CopySetManager.prepareConfigMatchCheck (m : CopySetManager)
    (ns : StorageSet) (config : ServerConfig) : CopySetManager :=
  { m with match_check := some (getWritableShards ns config) }

/-- Modelled from the spec: the config-consistency check is not in `src/`.
`checkConfigConsistency(current writable shards) -> bool` (§6): compare the
recorded writable view with the current one and report the outcome as a
boolean signal — it never raises. -/
def CopySetManager.checkConfigConsistency (m : CopySetManager)
    (current_writable : StorageSet) : Bool :=
  match m.match_check with
  | some stored => decide (stored = current_writable)
  | none => false

/-- Outcomes of `createManager`: the create outcome carried through. -/
inductive ManagerResult
  | ok (manager : CopySetManager)
  | errorReturned (status : Status)
  | abortAssert
  | abortEmptyOptional

/-- `CopySetSelectorFactory::createManager` (source lines 96–127): run
`create` on the same inputs; wrap the selector in a
`StickyCopySetManager(selector, nodeset_state, block_size, block_max_time)`
when `sticky_copysets`, else in a
`PassThroughCopySetManager(selector, nodeset_state)`; then call
`prepareConfigMatchCheck(epoch_metadata.shards, *config)` on the result
before returning it. -/
def CopySetSelectorFactory.createManager (inp : CreateInput)
    (sticky_copysets : Bool) (sticky_copysets_block_size : Nat)
    (sticky_copysets_block_max_time : Nat) : ManagerResult :=
  match CopySetSelectorFactory.create inp with
  | .ok copyset_selector =>
    let res : CopySetManager :=
      if sticky_copysets then
        { variant := .sticky sticky_copysets_block_size
            sticky_copysets_block_max_time
          selector := copyset_selector
          nodeset_state := inp.nodeset_state
          match_check := none }
      else
        { variant := .passThrough
          selector := copyset_selector
          nodeset_state := inp.nodeset_state
          match_check := none }
    .ok (res.prepareConfigMatchCheck inp.epoch_metadata.shards inp.config)
  | .errorReturned st => .errorReturned st
  | .abortAssert => .abortAssert
  | .abortEmptyOptional => .abortEmptyOptional

/-- Rewrite the balance-warning flag of a weighted selector; identity on
the other variants (the flag exists only on the weighted one). -/
def CopySetSelector.setBiasWarnings (s : CopySetSelector)
    (warn : Bool) : CopySetSelector :=
  match s with
  | .weighted l em st cfg nid la loc rng _ =>
    .weighted l em st cfg nid la loc rng warn
  | other => other

/-- Modelled from the spec: `WeightedCopySetSelector::select` is not in
`src/`.  Per §4.4 selection draws writable shards up to the effective
replication factor implied by the weighted specification, and balance
warnings are "observability only, never a correctness gate" — selection is
a function of the epoch metadata and the health view, never of the
warning flag.  The sampling order is modelled as nodeset order; the
domain-constraint bookkeeping is elided, as no claim here refers to it. -/
def weightedSelect (s : CopySetSelector)
    (healthy : ShardID → Bool) : Option (List ShardID) :=
  match s with
  | .weighted _ em _ _ _ _ _ _ _ =>
    let pool := em.shards.filter healthy
    let f := em.replication.effectiveReplicationFactor
    if f ≤ pool.length then some (pool.take f) else none
  | _ => none

/-- Counter identifiers of `OffsetMap`.  Modelled from the spec: the
`CounterType` enum is not in `src/`; its unit test uses `BYTE_OFFSET`,
serialized as a one-byte tag. -/
inductive CounterType
  | BYTE_OFFSET
  deriving DecidableEq

/-- One-byte wire tag of a counter type. -/
def CounterType.toByte : CounterType → Nat
  | .BYTE_OFFSET => 246

/-- Decode a counter-type tag byte. -/
def CounterType.fromByte (b : Nat) : Option CounterType :=
  if b = 246 then some .BYTE_OFFSET else none

/-- Modelled from the spec: `OffsetMap` is not in `src/`; only its unit
test (`OffsetMapTest.cpp`) is.  It is a map from counter types to 64-bit
values, with `setCounter`/`getCounter` accessors and a binary
serialization. -/
structure OffsetMap where
  counterTypeMap : List (CounterType × Nat)

/-- An `OffsetMap` holding no counters (the default-constructed map). -/
def OffsetMap.empty : OffsetMap := ⟨[]⟩

/-- Set a counter: update in place when present, append otherwise. -/
def OffsetMap.setCounter (m : OffsetMap) (t : CounterType)
    (v : Nat) : OffsetMap :=
  if (m.counterTypeMap.lookup t).isSome then
    ⟨m.counterTypeMap.map (fun p => if p.1 = t then (t, v) else p)⟩
  else ⟨m.counterTypeMap ++ [(t, v)]⟩

/-- Read a counter's value, `none` when the counter is unset. -/
def OffsetMap.getCounter (m : OffsetMap) (t : CounterType) : Option Nat :=
  m.counterTypeMap.lookup t

/-- Little-endian 8-byte encoding of a 64-bit value. -/
def encode64 (v : Nat) : List Nat :=
  [v % 256, v / 256 % 256, v / 65536 % 256, v / 16777216 % 256,
   v / 4294967296 % 256, v / 1099511627776 % 256,
   v / 281474976710656 % 256, v / 72057594037927936 % 256]

/-- Little-endian decoding of 8 bytes. -/
def decode64 (b0 b1 b2 b3 b4 b5 b6 b7 : Nat) : Nat :=
  b0 + 256 * b1 + 65536 * b2 + 16777216 * b3 + 4294967296 * b4 +
    1099511627776 * b5 + 281474976710656 * b6 +
    72057594037927936 * b7

/-- Wire image of an `OffsetMap`: a one-byte counter count followed by a
(tag, 8-byte value) pair per counter. -/
def OffsetMap.serializedBytes (m : OffsetMap) : List Nat :=
  m.counterTypeMap.length % 256 ::
    (m.counterTypeMap.map (fun p => p.1.toByte :: encode64 p.2)).flatten

/-- Modelled from the spec: `OffsetMap::serialize(buf, size)` is not in
`src/`.  It writes the wire image when the buffer is large enough and
returns the byte count (`none` models the too-small-buffer failure the
test's `max_len` avoids). -/
def OffsetMap.serialize (m : OffsetMap) (max_len : Nat) :
    Option (List Nat) :=
  let bs := m.serializedBytes
  if bs.length ≤ max_len then some bs else none

/-- Read `n` (tag, 8-byte value) pairs; yields the counters and the number
of bytes consumed. -/
def readCounters : Nat → List Nat →
    Option (List (CounterType × Nat) × Nat)
  | 0, _ => some ([], 0)
  | n + 1, t :: b0 :: b1 :: b2 :: b3 :: b4 :: b5 :: b6 :: b7 :: rest =>
    match CounterType.fromByte t with
    | none => none
    | some ct =>
      match readCounters n rest with
      | none => none
      | some (cs, used) =>
        some ((ct, decode64 b0 b1 b2 b3 b4 b5 b6 b7) :: cs, used + 9)
  | _ + 1, _ => none

/-- Modelled from the spec: `OffsetMap::deserialize` is not in `src/`.  It
parses one `OffsetMap` from the front of a buffer and reports how many
bytes it consumed. -/
def OffsetMap.deserialize (bytes : List Nat) :
    Option (OffsetMap × Nat) :=
  match bytes with
  | [] => none
  | n :: rest =>
    match readCounters n rest with
    | none => none
    | some (cs, used) => some (⟨cs⟩, used + 1)

/-! Concrete sample inputs used by witness and counterexample theorems. -/

/-- A configuration whose storage membership permits writes everywhere. -/
def cfgAllWritable : ServerConfig := ⟨fun _ => true⟩

/-- A configuration under which node 1's shards are not writable. -/
def cfgNode1ReadOnly : ServerConfig := ⟨fun s => decide (s.node ≠ 1)⟩

/-- A small sample nodeset. -/
def sampleShards : StorageSet := [⟨0, 0⟩, ⟨1, 0⟩, ⟨2, 0⟩]

/-- Weighted case: a simple node-scope factor-2 specification that carries
a non-empty weight map. -/
def inpC1 : CreateInput :=
  { logid := 1
    epoch_metadata :=
      { replication := ⟨[(.NODE, 2)]⟩
        weights := [1, 2, 3]
        shards := sampleShards }
    nodeset_state := 7
    config := cfgAllWritable
    my_node_id := some 0
    log_attrs := none
    settings :=
      { weighted_copyset_selector := false
        copyset_locality_min_scope := .RACK }
    init_rng := 42 }

/-- Unweighted node-scope factor-3 specification. -/
def inpC2 : CreateInput :=
  { logid := 2
    epoch_metadata :=
      { replication := ⟨[(.NODE, 3)]⟩
        weights := []
        shards := sampleShards }
    nodeset_state := 8
    config := cfgNode1ReadOnly
    my_node_id := some 0
    log_attrs := none
    settings :=
      { weighted_copyset_selector := false
        copyset_locality_min_scope := .RACK }
    init_rng := 42 }

/-- Unweighted specification at the unsupported ROOT scope, factor 2. -/
def inpC3cx : CreateInput :=
  { logid := 3
    epoch_metadata :=
      { replication := ⟨[(.ROOT, 2)]⟩
        weights := []
        shards := sampleShards }
    nodeset_state := 9
    config := cfgAllWritable
    my_node_id := some 1
    log_attrs := none
    settings :=
      { weighted_copyset_selector := false
        copyset_locality_min_scope := .RACK }
    init_rng := 42 }

/-- Unweighted rack-scope factor-2 specification with an identity. -/
def inpC3w : CreateInput :=
  { logid := 4
    epoch_metadata :=
      { replication := ⟨[(.RACK, 2)]⟩
        weights := []
        shards := sampleShards }
    nodeset_state := 10
    config := cfgNode1ReadOnly
    my_node_id := some 5
    log_attrs := none
    settings :=
      { weighted_copyset_selector := false
        copyset_locality_min_scope := .RACK }
    init_rng := 42 }

/-- Unweighted rack-scope factor-2 specification with no identity. -/
def inpC4 : CreateInput :=
  { logid := 5
    epoch_metadata :=
      { replication := ⟨[(.RACK, 2)]⟩
        weights := []
        shards := sampleShards }
    nodeset_state := 11
    config := cfgAllWritable
    my_node_id := none
    log_attrs := none
    settings :=
      { weighted_copyset_selector := false
        copyset_locality_min_scope := .RACK }
    init_rng := 42 }

/-- Input for the manager-level witnesses. -/
def inpC5 : CreateInput :=
  { logid := 6
    epoch_metadata :=
      { replication := ⟨[(.NODE, 2)]⟩
        weights := []
        shards := sampleShards }
    nodeset_state := 12
    config := cfgAllWritable
    my_node_id := some 0
    log_attrs := none
    settings :=
      { weighted_copyset_selector := false
        copyset_locality_min_scope := .RACK }
    init_rng := 42 }

/-- A multi-scope (hence non-derivable) specification: region max scope. -/
def inpC6 : CreateInput :=
  { logid := 7
    epoch_metadata :=
      { replication := ⟨[(.RACK, 2), (.REGION, 3)]⟩
        weights := []
        shards := sampleShards }
    nodeset_state := 13
    config := cfgAllWritable
    my_node_id := some 0
    log_attrs := none
    settings :=
      { weighted_copyset_selector := false
        copyset_locality_min_scope := .CLUSTER }
    init_rng := 42 }

/-- A weighted specification on an ordinary (user-range) log. -/
def inpC7 : CreateInput :=
  { logid := 8
    epoch_metadata :=
      { replication := ⟨[(.NODE, 2)]⟩
        weights := [5]
        shards := sampleShards }
    nodeset_state := 14
    config := cfgAllWritable
    my_node_id := some 0
    log_attrs := none
    settings :=
      { weighted_copyset_selector := false
        copyset_locality_min_scope := .RACK }
    init_rng := 42 }

/-- Input for the config-check witness. -/
def inpC8 : CreateInput :=
  { logid := 9
    epoch_metadata :=
      { replication := ⟨[(.NODE, 2)]⟩
        weights := []
        shards := sampleShards }
    nodeset_state := 15
    config := cfgNode1ReadOnly
    my_node_id := some 0
    log_attrs := none
    settings :=
      { weighted_copyset_selector := false
        copyset_locality_min_scope := .RACK }
    init_rng := 42 }

/-- Input whose selector is built over a strictly filtered nodeset. -/
def inpC9 : CreateInput :=
  { logid := 10
    epoch_metadata :=
      { replication := ⟨[(.RACK, 2)]⟩
        weights := []
        shards := sampleShards }
    nodeset_state := 16
    config := cfgNode1ReadOnly
    my_node_id := some 2
    log_attrs := none
    settings :=
      { weighted_copyset_selector := false
        copyset_locality_min_scope := .RACK }
    init_rng := 42 }

/-! Theorems. -/

/-- Helper: on the weighted branch the factory returns exactly the
`WeightedCopySetSelector` built from the inputs. -/
theorem create_weighted_branch (inp : CreateInput)
    (h : inp.epoch_metadata.replication.toOldRepresentation = none ∨
      inp.epoch_metadata.weights ≠ [] ∨
      inp.settings.weighted_copyset_selector = true) :
    CopySetSelectorFactory.create inp =
      .ok (.weighted inp.logid inp.epoch_metadata inp.nodeset_state
        inp.config inp.my_node_id inp.log_attrs
        (scopeGe inp.epoch_metadata.replication.getBiggestReplicationScope
          inp.settings.copyset_locality_min_scope)
        inp.init_rng
        (!MetaDataLog.isMetaDataLog inp.logid &&
          !InternalLogs.isInternal inp.logid)) := by
  simp only [CopySetSelectorFactory.create]
  rw [if_pos h]

/-- C1: a replication specification with a non-empty weight map, or with no
derivable simple scope+factor representation, or under the global "always
use weighted" setting, makes `create` return the Weighted selector — this
test precedes every other selection rule, so it holds regardless of the
scope/factor shape and of every other input field. -/
theorem create_selects_weighted_first (inp : CreateInput)
    (h : inp.epoch_metadata.replication.toOldRepresentation = none ∨
      inp.epoch_metadata.weights ≠ [] ∨
      inp.settings.weighted_copyset_selector = true) :
    ∃ em st cfg nid la loc rng warn,
      CopySetSelectorFactory.create inp =
        .ok (.weighted inp.logid em st cfg nid la loc rng warn) := by
  exact ⟨_, _, _, _, _, _, _, _, create_weighted_branch inp h⟩

/-- Witness for C1: a simple node-scope factor-2 specification whose
weight map is non-empty still selects the Weighted strategy. -/
theorem create_selects_weighted_first_witness :
    (inpC1.epoch_metadata.replication.toOldRepresentation = none ∨
      inpC1.epoch_metadata.weights ≠ [] ∨
      inpC1.settings.weighted_copyset_selector = true) ∧
    ∃ em st cfg nid la loc rng warn,
      CopySetSelectorFactory.create inpC1 =
        .ok (.weighted inpC1.logid em st cfg nid la loc rng warn) :=
  ⟨Or.inr (Or.inl (by simp [inpC1])),
    create_selects_weighted_first inpC1 (Or.inr (Or.inl (by simp [inpC1])))⟩

/-- Helper: on the unconstrained branch the factory returns exactly the
`LinearCopySetSelector` over the writable shards. -/
theorem create_linear_branch (inp : CreateInput) (lr : OldRepresentation)
    (hleg : inp.epoch_metadata.replication.toOldRepresentation = some lr)
    (hw : inp.epoch_metadata.weights = [])
    (hset : inp.settings.weighted_copyset_selector = false)
    (hs : lr.sync_replication_scope = .NODE ∨ lr.replication_factor = 1) :
    CopySetSelectorFactory.create inp =
      .ok (.linear lr.replication_factor
        (getWritableShards inp.epoch_metadata.shards inp.config)
        inp.nodeset_state) := by
  simp only [CopySetSelectorFactory.create, hleg, hw, hset]
  simp only [reduceCtorEq, ne_eq, not_true_eq_false, Bool.false_eq_true,
    or_self, if_false]
  rw [if_pos hs]

/-- C2: a non-weighted specification (simple representation derivable,
empty weight map, "always weighted" off) whose simple scope is the node
scope or whose factor is 1 makes `create` return the Unconstrained
(linear) selector. -/
theorem create_selects_unconstrained (inp : CreateInput)
    (lr : OldRepresentation)
    (hleg : inp.epoch_metadata.replication.toOldRepresentation = some lr)
    (hw : inp.epoch_metadata.weights = [])
    (hset : inp.settings.weighted_copyset_selector = false)
    (hs : lr.sync_replication_scope = .NODE ∨ lr.replication_factor = 1) :
    CopySetSelectorFactory.create inp =
      .ok (.linear lr.replication_factor
        (getWritableShards inp.epoch_metadata.shards inp.config)
        inp.nodeset_state) :=
  create_linear_branch inp lr hleg hw hset hs

/-- Witness for C2: node-scope factor-3, no weights, flag off. -/
theorem create_selects_unconstrained_witness :
    (inpC2.epoch_metadata.replication.toOldRepresentation =
        some ⟨3, .NODE⟩ ∧
      inpC2.epoch_metadata.weights = [] ∧
      inpC2.settings.weighted_copyset_selector = false) ∧
    CopySetSelectorFactory.create inpC2 =
      .ok (.linear (3 : Nat)
        (getWritableShards inpC2.epoch_metadata.shards inpC2.config)
        inpC2.nodeset_state) :=
  ⟨⟨rfl, rfl, rfl⟩,
    create_selects_unconstrained inpC2 ⟨3, .NODE⟩ rfl rfl rfl
      (Or.inl rfl)⟩

/-- Helper: with the weighted test failing, the factory's remaining
behavior as a single case expression over the simple representation. -/
theorem create_nonweighted_eq (inp : CreateInput) (lr : OldRepresentation)
    (hleg : inp.epoch_metadata.replication.toOldRepresentation = some lr)
    (hw : inp.epoch_metadata.weights = [])
    (hset : inp.settings.weighted_copyset_selector = false) :
    CopySetSelectorFactory.create inp =
      if lr.sync_replication_scope = .NODE ∨ lr.replication_factor = 1 then
        .ok (.linear lr.replication_factor
          (getWritableShards inp.epoch_metadata.shards inp.config)
          inp.nodeset_state)
      else
        if lr.sync_replication_scope = .RACK ∨
            lr.sync_replication_scope = .ROW ∨
            lr.sync_replication_scope = .CLUSTER ∨
            lr.sync_replication_scope = .REGION then
          match inp.my_node_id with
          | none => .abortEmptyOptional
          | some nid =>
            .ok (.crossDomain inp.logid
              (getWritableShards inp.epoch_metadata.shards inp.config)
              inp.nodeset_state inp.config nid lr.replication_factor
              lr.sync_replication_scope)
        else .abortAssert := by
  simp only [CopySetSelectorFactory.create, hleg, hw, hset]
  simp only [reduceCtorEq, ne_eq, not_true_eq_false, Bool.false_eq_true,
    or_self, if_false]

/-- C3 (amended): for a non-weighted specification with factor ≠ 1 and
scope other than node, a scope among rack/row/cluster/region yields the
Domain-Constrained (cross-domain) selector when a local-node identity is
supplied; any other scope value makes the factory fail fast on the
`ld_check` assertion — an abort, not an InvalidConfiguration error
returned to the caller, and with no internal retry. -/
theorem create_coarse_scope_fails_fast (inp : CreateInput)
    (lr : OldRepresentation)
    (hleg : inp.epoch_metadata.replication.toOldRepresentation = some lr)
    (hw : inp.epoch_metadata.weights = [])
    (hset : inp.settings.weighted_copyset_selector = false)
    (hnode : lr.sync_replication_scope ≠ .NODE)
    (hf : lr.replication_factor ≠ 1) :
    ((lr.sync_replication_scope = .RACK ∨
        lr.sync_replication_scope = .ROW ∨
        lr.sync_replication_scope = .CLUSTER ∨
        lr.sync_replication_scope = .REGION) →
      ∀ nid, inp.my_node_id = some nid →
        CopySetSelectorFactory.create inp =
          .ok (.crossDomain inp.logid
            (getWritableShards inp.epoch_metadata.shards inp.config)
            inp.nodeset_state inp.config nid lr.replication_factor
            lr.sync_replication_scope)) ∧
    (¬(lr.sync_replication_scope = .RACK ∨
        lr.sync_replication_scope = .ROW ∨
        lr.sync_replication_scope = .CLUSTER ∨
        lr.sync_replication_scope = .REGION) →
      CopySetSelectorFactory.create inp = .abortAssert ∧
      ∀ st, CopySetSelectorFactory.create inp ≠ .errorReturned st) := by
  have heq := create_nonweighted_eq inp lr hleg hw hset
  rw [if_neg (not_or.mpr ⟨hnode, hf⟩)] at heq
  constructor
  · intro hacc nid hid
    rw [heq, if_pos hacc, hid]
  · intro hnacc
    rw [heq, if_neg hnacc]
    exact ⟨rfl, fun st h => FactoryResult.noConfusion h⟩

/-- Witness for C3 (amended), at a rack-scope factor-2 specification with
a supplied identity. -/
theorem create_coarse_scope_fails_fast_witness :
    (inpC3w.epoch_metadata.replication.toOldRepresentation =
        some ⟨2, .RACK⟩ ∧
      inpC3w.epoch_metadata.weights = [] ∧
      inpC3w.settings.weighted_copyset_selector = false ∧
      (⟨2, .RACK⟩ : OldRepresentation).sync_replication_scope ≠ .NODE ∧
      (⟨2, .RACK⟩ : OldRepresentation).replication_factor ≠ 1) ∧
    ((((⟨2, .RACK⟩ : OldRepresentation).sync_replication_scope = .RACK ∨
        (⟨2, .RACK⟩ : OldRepresentation).sync_replication_scope = .ROW ∨
        (⟨2, .RACK⟩ : OldRepresentation).sync_replication_scope =
          .CLUSTER ∨
        (⟨2, .RACK⟩ : OldRepresentation).sync_replication_scope =
          .REGION) →
      ∀ nid, inpC3w.my_node_id = some nid →
        CopySetSelectorFactory.create inpC3w =
          .ok (.crossDomain inpC3w.logid
            (getWritableShards inpC3w.epoch_metadata.shards inpC3w.config)
            inpC3w.nodeset_state inpC3w.config nid
            (⟨2, .RACK⟩ : OldRepresentation).replication_factor
            (⟨2, .RACK⟩ : OldRepresentation).sync_replication_scope)) ∧
    (¬((⟨2, .RACK⟩ : OldRepresentation).sync_replication_scope = .RACK ∨
        (⟨2, .RACK⟩ : OldRepresentation).sync_replication_scope = .ROW ∨
        (⟨2, .RACK⟩ : OldRepresentation).sync_replication_scope =
          .CLUSTER ∨
        (⟨2, .RACK⟩ : OldRepresentation).sync_replication_scope =
          .REGION) →
      CopySetSelectorFactory.create inpC3w = .abortAssert ∧
      ∀ st, CopySetSelectorFactory.create inpC3w ≠ .errorReturned st)) :=
  ⟨⟨rfl, rfl, rfl, by decide, by decide⟩,
    create_coarse_scope_fails_fast inpC3w ⟨2, .RACK⟩ rfl rfl rfl
      (by decide) (by decide)⟩

/-- Counterexample for C3 as stated: at the unsupported ROOT scope the
factory aborts on a failed assertion; it does not return an
InvalidConfiguration error to the caller. -/
theorem create_root_scope_no_invalid_config_error :
    CopySetSelectorFactory.create inpC3cx = .abortAssert ∧
    CopySetSelectorFactory.create inpC3cx ≠
      .errorReturned Status.INVALID_CONFIG := by
  have h1 : CopySetSelectorFactory.create inpC3cx = .abortAssert := rfl
  refine ⟨h1, ?_⟩
  rw [h1]
  exact fun h => FactoryResult.noConfusion h

/-- C4 (amended): when domain-aware selection is reached (non-weighted,
supported coarse scope, factor ≠ 1) and no local-node identity was
supplied, the factory aborts unwrapping the empty optional
(`my_node_id.value()`) — it neither succeeds nor returns an
InvalidConfiguration error. -/
theorem create_missing_identity_aborts (inp : CreateInput)
    (lr : OldRepresentation)
    (hleg : inp.epoch_metadata.replication.toOldRepresentation = some lr)
    (hw : inp.epoch_metadata.weights = [])
    (hset : inp.settings.weighted_copyset_selector = false)
    (hacc : lr.sync_replication_scope = .RACK ∨
      lr.sync_replication_scope = .ROW ∨
      lr.sync_replication_scope = .CLUSTER ∨
      lr.sync_replication_scope = .REGION)
    (hf : lr.replication_factor ≠ 1)
    (hid : inp.my_node_id = none) :
    CopySetSelectorFactory.create inp = .abortEmptyOptional ∧
    (∀ st, CopySetSelectorFactory.create inp ≠ .errorReturned st) ∧
    ∀ s, CopySetSelectorFactory.create inp ≠ .ok s := by
  have hnode : lr.sync_replication_scope ≠ .NODE := by
    rcases hacc with h | h | h | h <;> rw [h] <;>
      exact fun hc => NodeLocationScope.noConfusion hc
  have heq := create_nonweighted_eq inp lr hleg hw hset
  rw [if_neg (not_or.mpr ⟨hnode, hf⟩), if_pos hacc, hid] at heq
  refine ⟨heq, ?_, ?_⟩ <;> rw [heq]
  · exact fun st h => FactoryResult.noConfusion h
  · exact fun s h => FactoryResult.noConfusion h

/-- Witness for C4 (amended), at a rack-scope factor-2 specification with
no identity. -/
theorem create_missing_identity_aborts_witness :
    (inpC4.epoch_metadata.replication.toOldRepresentation =
        some ⟨2, .RACK⟩ ∧
      inpC4.epoch_metadata.weights = [] ∧
      inpC4.settings.weighted_copyset_selector = false ∧
      ((⟨2, .RACK⟩ : OldRepresentation).sync_replication_scope = .RACK ∨
        (⟨2, .RACK⟩ : OldRepresentation).sync_replication_scope = .ROW ∨
        (⟨2, .RACK⟩ : OldRepresentation).sync_replication_scope =
          .CLUSTER ∨
        (⟨2, .RACK⟩ : OldRepresentation).sync_replication_scope =
          .REGION) ∧
      (⟨2, .RACK⟩ : OldRepresentation).replication_factor ≠ 1 ∧
      inpC4.my_node_id = none) ∧
    (CopySetSelectorFactory.create inpC4 = .abortEmptyOptional ∧
      (∀ st, CopySetSelectorFactory.create inpC4 ≠ .errorReturned st) ∧
      ∀ s, CopySetSelectorFactory.create inpC4 ≠ .ok s) :=
  ⟨⟨rfl, rfl, rfl, by decide, by decide, rfl⟩,
    create_missing_identity_aborts inpC4 ⟨2, .RACK⟩ rfl rfl rfl
      (by decide) (by decide) rfl⟩

/-- Counterexample for C4 as stated: with the identity absent the factory
aborts (empty-optional unwrap); it does not return an InvalidConfiguration
error and does not succeed. -/
theorem create_missing_identity_not_invalid_config :
    CopySetSelectorFactory.create inpC4 = .abortEmptyOptional ∧
    CopySetSelectorFactory.create inpC4 ≠
      .errorReturned Status.INVALID_CONFIG := by
  have h1 : CopySetSelectorFactory.create inpC4 = .abortEmptyOptional := rfl
  refine ⟨h1, ?_⟩
  rw [h1]
  exact fun h => FactoryResult.noConfusion h

/-- C5: every manager `createManager` returns is the Sticky variant with
the given block size and block duration when the sticky flag is on, and
the Pass-Through variant otherwise; in both cases it wraps exactly the
selector `create` produces for the same inputs. -/
theorem createManager_wraps_selected_strategy (inp : CreateInput)
    (sticky : Bool) (bs bmt : Nat) (m : CopySetManager)
    (h : CopySetSelectorFactory.createManager inp sticky bs bmt = .ok m) :
    ∃ s, CopySetSelectorFactory.create inp = .ok s ∧ m.selector = s ∧
      m.variant =
        (if sticky then CopySetManagerVariant.sticky bs bmt
          else CopySetManagerVariant.passThrough) := by
  rcases hcr : CopySetSelectorFactory.create inp with s | st | _ | _ <;>
    simp only [CopySetSelectorFactory.createManager, hcr, reduceCtorEq,
      ManagerResult.ok.injEq] at h
  refine ⟨s, rfl, ?_, ?_⟩ <;> rw [← h] <;> cases sticky <;> rfl

/-- Witness for C5: sticky manager over a node-scope epoch. -/
theorem createManager_wraps_selected_strategy_witness :
    (CopySetSelectorFactory.createManager inpC5 true 10 5000 =
      .ok { variant := .sticky 10 5000
            selector := .linear 2 sampleShards 12
            nodeset_state := 12
            match_check := some sampleShards }) ∧
    ∃ s, CopySetSelectorFactory.create inpC5 = .ok s ∧
      ({ variant := .sticky 10 5000
         selector := .linear 2 sampleShards 12
         nodeset_state := 12
         match_check := some sampleShards } : CopySetManager).selector =
        s ∧
      ({ variant := .sticky 10 5000
         selector := .linear 2 sampleShards 12
         nodeset_state := 12
         match_check := some sampleShards } : CopySetManager).variant =
        (if true then CopySetManagerVariant.sticky 10 5000
          else CopySetManagerVariant.passThrough) :=
  ⟨rfl, createManager_wraps_selected_strategy inpC5 true 10 5000 _ rfl⟩

/-- C6: whenever the factory takes the weighted branch, the selector's
locality flag is on exactly when the specification's largest constrained
scope is at or above the configured minimum locality scope. -/
theorem weighted_locality_iff (inp : CreateInput) (s : CopySetSelector)
    (hcond : inp.epoch_metadata.replication.toOldRepresentation = none ∨
      inp.epoch_metadata.weights ≠ [] ∨
      inp.settings.weighted_copyset_selector = true)
    (h : CopySetSelectorFactory.create inp = .ok s) :
    s.localityEnabled = some true ↔
      scopeGe inp.epoch_metadata.replication.getBiggestReplicationScope
        inp.settings.copyset_locality_min_scope = true := by
  rw [create_weighted_branch inp hcond] at h
  injection h with h'
  subst h'
  simp [CopySetSelector.localityEnabled]

/-- Witness for C6: a two-scope (rack+region) specification with a
cluster-level minimum locality scope enables locality biasing. -/
theorem weighted_locality_iff_witness :
    ((inpC6.epoch_metadata.replication.toOldRepresentation = none ∨
        inpC6.epoch_metadata.weights ≠ [] ∨
        inpC6.settings.weighted_copyset_selector = true) ∧
      CopySetSelectorFactory.create inpC6 =
        .ok (.weighted inpC6.logid inpC6.epoch_metadata
          inpC6.nodeset_state inpC6.config inpC6.my_node_id
          inpC6.log_attrs true inpC6.init_rng true)) ∧
    ((CopySetSelector.weighted inpC6.logid inpC6.epoch_metadata
        inpC6.nodeset_state inpC6.config inpC6.my_node_id
        inpC6.log_attrs true inpC6.init_rng true).localityEnabled =
      some true ↔
      scopeGe inpC6.epoch_metadata.replication.getBiggestReplicationScope
        inpC6.settings.copyset_locality_min_scope = true) :=
  ⟨⟨Or.inl rfl, rfl⟩, weighted_locality_iff inpC6 _ (Or.inl rfl) rfl⟩

/-- C7: whenever the factory takes the weighted branch, balance-warning
diagnostics are enabled exactly when the log is neither a metadata log nor
an internal log; and the flag is observability only — the (spec-modelled)
weighted selection is unchanged by rewriting it. -/
theorem weighted_bias_warning_policy (inp : CreateInput)
    (s : CopySetSelector)
    (hcond : inp.epoch_metadata.replication.toOldRepresentation = none ∨
      inp.epoch_metadata.weights ≠ [] ∨
      inp.settings.weighted_copyset_selector = true)
    (h : CopySetSelectorFactory.create inp = .ok s) :
    (s.printBiasWarnings = some true ↔
      (MetaDataLog.isMetaDataLog inp.logid = false ∧
        InternalLogs.isInternal inp.logid = false)) ∧
    ∀ (warn : Bool) (healthy : ShardID → Bool),
      weightedSelect (s.setBiasWarnings warn) healthy =
        weightedSelect s healthy := by
  rw [create_weighted_branch inp hcond] at h
  injection h with h'
  subst h'
  constructor
  · simp only [CopySetSelector.printBiasWarnings, Option.some_inj]
    cases MetaDataLog.isMetaDataLog inp.logid <;>
      cases InternalLogs.isInternal inp.logid <;> simp
  · intro warn healthy
    rfl

/-- Witness for C7: a weighted user-range log gets warnings enabled. -/
theorem weighted_bias_warning_policy_witness :
    ((inpC7.epoch_metadata.replication.toOldRepresentation = none ∨
        inpC7.epoch_metadata.weights ≠ [] ∨
        inpC7.settings.weighted_copyset_selector = true) ∧
      CopySetSelectorFactory.create inpC7 =
        .ok (.weighted inpC7.logid inpC7.epoch_metadata
          inpC7.nodeset_state inpC7.config inpC7.my_node_id
          inpC7.log_attrs false inpC7.init_rng true)) ∧
    (((CopySetSelector.weighted inpC7.logid inpC7.epoch_metadata
          inpC7.nodeset_state inpC7.config inpC7.my_node_id
          inpC7.log_attrs false inpC7.init_rng true).printBiasWarnings =
        some true ↔
        (MetaDataLog.isMetaDataLog inpC7.logid = false ∧
          InternalLogs.isInternal inpC7.logid = false)) ∧
      ∀ (warn : Bool) (healthy : ShardID → Bool),
        weightedSelect
          ((CopySetSelector.weighted inpC7.logid inpC7.epoch_metadata
            inpC7.nodeset_state inpC7.config inpC7.my_node_id
            inpC7.log_attrs false inpC7.init_rng
            true).setBiasWarnings warn) healthy =
          weightedSelect
            (CopySetSelector.weighted inpC7.logid inpC7.epoch_metadata
              inpC7.nodeset_state inpC7.config inpC7.my_node_id
              inpC7.log_attrs false inpC7.init_rng true) healthy) :=
  ⟨⟨Or.inr (Or.inl (by simp [inpC7])), rfl⟩,
    weighted_bias_warning_policy inpC7 _
      (Or.inr (Or.inl (by simp [inpC7]))) rfl⟩

/-- C8: every manager `createManager` returns — Sticky or Pass-Through —
has its config-consistency check prepared against the epoch's nodeset and
the given configuration, and that check reports by returning a boolean
signal comparing the recorded writable view with the current one. -/
theorem createManager_prepares_config_check (inp : CreateInput)
    (sticky : Bool) (bs bmt : Nat) (m : CopySetManager)
    (h : CopySetSelectorFactory.createManager inp sticky bs bmt = .ok m) :
    m.match_check =
      some (getWritableShards inp.epoch_metadata.shards inp.config) ∧
    ∀ current, m.checkConfigConsistency current =
      decide (getWritableShards inp.epoch_metadata.shards inp.config =
        current) := by
  rcases hcr : CopySetSelectorFactory.create inp with s | st | _ | _ <;>
    simp only [CopySetSelectorFactory.createManager, hcr, reduceCtorEq,
      ManagerResult.ok.injEq] at h
  refine ⟨?_, ?_⟩
  · rw [← h]; cases sticky <;> rfl
  · intro current; rw [← h]; cases sticky <;> rfl

/-- Witness for C8: pass-through manager over a partially writable
nodeset. -/
theorem createManager_prepares_config_check_witness :
    (CopySetSelectorFactory.createManager inpC8 false 0 0 =
      .ok { variant := .passThrough
            selector := .linear 2 [⟨0, 0⟩, ⟨2, 0⟩] 15
            nodeset_state := 15
            match_check := some [⟨0, 0⟩, ⟨2, 0⟩] }) ∧
    (({ variant := .passThrough
        selector := .linear 2 [⟨0, 0⟩, ⟨2, 0⟩] 15
        nodeset_state := 15
        match_check := some [⟨0, 0⟩, ⟨2, 0⟩] } :
          CopySetManager).match_check =
        some (getWritableShards inpC8.epoch_metadata.shards
          inpC8.config) ∧
      ∀ current,
        ({ variant := .passThrough
           selector := .linear 2 [⟨0, 0⟩, ⟨2, 0⟩] 15
           nodeset_state := 15
           match_check := some [⟨0, 0⟩, ⟨2, 0⟩] } :
             CopySetManager).checkConfigConsistency current =
          decide (getWritableShards inpC8.epoch_metadata.shards
            inpC8.config = current)) :=
  ⟨rfl, createManager_prepares_config_check inpC8 false 0 0 _ rfl⟩

/-- C9: the Unconstrained and Domain-Constrained selectors are built over
the writable view of the epoch's nodeset (every shard they receive passed
the configuration's writability test), while the Weighted selector is
built from the full epoch metadata, non-writable shards included. -/
theorem create_uses_writable_view (inp : CreateInput)
    (s : CopySetSelector)
    (h : CopySetSelectorFactory.create inp = .ok s) :
    (∀ f sh st, s = .linear f sh st →
      sh = getWritableShards inp.epoch_metadata.shards inp.config ∧
      ∀ x ∈ sh, inp.config.canWriteTo x = true) ∧
    (∀ l sh st cfg nid f sc, s = .crossDomain l sh st cfg nid f sc →
      sh = getWritableShards inp.epoch_metadata.shards inp.config ∧
      ∀ x ∈ sh, inp.config.canWriteTo x = true) ∧
    (∀ l em st cfg nid la loc rng warn,
      s = .weighted l em st cfg nid la loc rng warn →
      em = inp.epoch_metadata) := by
  have hmem : ∀ x ∈ getWritableShards inp.epoch_metadata.shards
      inp.config, inp.config.canWriteTo x = true := by
    intro x hx
    simp only [getWritableShards] at hx
    exact (List.mem_filter.mp hx).2
  simp only [CopySetSelectorFactory.create] at h
  split at h
  · injection h with h'
    subst h'
    refine ⟨?_, ?_, ?_⟩
    · exact fun f sh st heq => CopySetSelector.noConfusion heq
    · exact fun l sh st cfg nid f sc heq => CopySetSelector.noConfusion heq
    · intro l em st cfg nid la loc rng warn heq
      injection heq with e1 e2
      exact e2.symm
  · split at h
    · exact absurd h (by simp)
    · split at h
      · injection h with h'
        subst h'
        refine ⟨?_, ?_, ?_⟩
        · intro f sh st heq
          injection heq with e1 e2 e3
          exact ⟨e2.symm, e2 ▸ hmem⟩
        · exact fun l sh st cfg nid f sc heq =>
            CopySetSelector.noConfusion heq
        · exact fun l em st cfg nid la loc rng warn heq =>
            CopySetSelector.noConfusion heq
      · split at h
        · split at h
          · exact absurd h (by simp)
          · injection h with h'
            subst h'
            refine ⟨?_, ?_, ?_⟩
            · exact fun f sh st heq => CopySetSelector.noConfusion heq
            · intro l sh st cfg nid f sc heq
              injection heq with e1 e2 e3 e4 e5 e6 e7
              exact ⟨e2.symm, e2 ▸ hmem⟩
            · exact fun l em st cfg nid la loc rng warn heq =>
                CopySetSelector.noConfusion heq
        · exact absurd h (by simp)

/-- Witness for C9: a rack-scope epoch under a configuration where node 1
is not writable yields a cross-domain selector over the filtered
nodeset. -/
theorem create_uses_writable_view_witness :
    (CopySetSelectorFactory.create inpC9 =
      .ok (.crossDomain inpC9.logid [⟨0, 0⟩, ⟨2, 0⟩]
        inpC9.nodeset_state inpC9.config 2 2 .RACK)) ∧
    ((∀ f sh st,
        (CopySetSelector.crossDomain inpC9.logid [⟨0, 0⟩, ⟨2, 0⟩]
          inpC9.nodeset_state inpC9.config 2 2 .RACK) =
          .linear f sh st →
        sh = getWritableShards inpC9.epoch_metadata.shards
          inpC9.config ∧
        ∀ x ∈ sh, inpC9.config.canWriteTo x = true) ∧
      (∀ l sh st cfg nid f sc,
        (CopySetSelector.crossDomain inpC9.logid [⟨0, 0⟩, ⟨2, 0⟩]
          inpC9.nodeset_state inpC9.config 2 2 .RACK) =
          .crossDomain l sh st cfg nid f sc →
        sh = getWritableShards inpC9.epoch_metadata.shards
          inpC9.config ∧
        ∀ x ∈ sh, inpC9.config.canWriteTo x = true) ∧
      (∀ l em st cfg nid la loc rng warn,
        (CopySetSelector.crossDomain inpC9.logid [⟨0, 0⟩, ⟨2, 0⟩]
          inpC9.nodeset_state inpC9.config 2 2 .RACK) =
          .weighted l em st cfg nid la loc rng warn →
        em = inpC9.epoch_metadata)) :=
  ⟨rfl, create_uses_writable_view inpC9 _ rfl⟩

/-- Helper: the 8-byte little-endian codec round-trips on 64-bit
values. -/
theorem decode64_encode64 (v : Nat) (hv : v < 18446744073709551616) :
    decode64 (v % 256) (v / 256 % 256) (v / 65536 % 256)
      (v / 16777216 % 256) (v / 4294967296 % 256)
      (v / 1099511627776 % 256) (v / 281474976710656 % 256)
      (v / 72057594037927936 % 256) = v := by
  simp only [decode64]
  omega

/-- C10: an `OffsetMap` holding a BYTE_OFFSET counter serializes into a
sufficiently large buffer with a positive byte count, and deserializing
from that buffer (whatever follows it) restores the same BYTE_OFFSET
value while consuming exactly the bytes serialize wrote. -/
theorem offsetMap_byte_offset_roundtrip (v : Nat)
    (hv : v < 18446744073709551616) (max_len : Nat)
    (hlen : 10 ≤ max_len) (extra : List Nat) :
    ∃ bs, (OffsetMap.empty.setCounter .BYTE_OFFSET v).serialize max_len =
        some bs ∧
      0 < bs.length ∧
      ∃ m2, OffsetMap.deserialize (bs ++ extra) = some (m2, bs.length) ∧
        m2.getCounter .BYTE_OFFSET = some v := by
  have hset : OffsetMap.empty.setCounter .BYTE_OFFSET v =
      ⟨[(.BYTE_OFFSET, v)]⟩ := rfl
  refine ⟨(OffsetMap.empty.setCounter .BYTE_OFFSET v).serializedBytes,
    ?_, ?_, ?_⟩
  · simp only [OffsetMap.serialize]
    rw [if_pos]
    rw [hset]
    simp only [OffsetMap.serializedBytes, encode64]
    simpa using hlen
  · rw [hset]
    simp [OffsetMap.serializedBytes, encode64]
  · rw [hset]
    refine ⟨⟨[(.BYTE_OFFSET, v)]⟩, ?_, ?_⟩
    · simp only [OffsetMap.serializedBytes, encode64, List.map_cons,
        List.map_nil, List.flatten, List.append_nil, List.length_cons,
        List.length_nil, List.cons_append, List.nil_append,
        OffsetMap.deserialize, readCounters, CounterType.fromByte,
        CounterType.toByte]
      rw [decode64_encode64 v hv]
      simp
    · rfl

/-- Witness for C10: value 7 in a 1 MiB buffer with trailing bytes. -/
theorem offsetMap_byte_offset_roundtrip_witness :
    ((7 : Nat) < 18446744073709551616 ∧ (10 : Nat) ≤ 1048576) ∧
    ∃ bs, (OffsetMap.empty.setCounter .BYTE_OFFSET 7).serialize 1048576 =
        some bs ∧
      0 < bs.length ∧
      ∃ m2, OffsetMap.deserialize (bs ++ [1, 2, 3]) =
          some (m2, bs.length) ∧
        m2.getCounter .BYTE_OFFSET = some 7 :=
  ⟨⟨by norm_num, by norm_num⟩,
    offsetMap_byte_offset_roundtrip 7 (by norm_num) 1048576 (by norm_num)
      [1, 2, 3]⟩

end LogDevice
